import Mathlib

/-!
Shallow embedding of `src/mlpacke/interface/glue.py` (`CatalogInterface`),
a cached CRUD wrapper over the AWS Glue Data Catalog partition API.

The boto3 Glue client is modelled as an oracle (`GlueClient`) giving the
response of the service to each kind of request.  Every method of
`CatalogInterface` becomes a function from the oracle and the process-local
cache (`cls._cache`) to an `OpResult`: the Python return value or the
exception that propagates (`Except`), the cache after the call, the list of
service requests the call issued, and the log records it emitted.  Partition
values are taken as strings (the Python code coerces them with
`list(map(str, partition))`; for string inputs that coercion is the
identity, written `List.map toString` to mirror the source line).
-/

/-- A partition record as returned by the Glue service: only its `"Values"`
entry is ever read by the code under verification. -/
structure PartRec where
  values : List String
deriving DecidableEq, Repr

/-- The expression `x["Values"][0]`: the first value component of a partition.  Glue
partition value lists are nonempty; `headD ""` totalises the indexing. -/
def firstValue (values : List String) : String :=
  values.headD ""

/-- Serde metadata inside a `StorageDescriptor` of a `PartitionInput`. -/
structure SerdeInfo where
  serializationLibrary : String
  parameters : List (String × String)
deriving DecidableEq, Repr

/-- The `StorageDescriptor` part of a `PartitionInput`; `update_partition`
sends only `Location`, so the format fields are optional. -/
structure StorageDescriptor where
  location : String
  inputFormat : Option String
  outputFormat : Option String
  serdeInfo : Option SerdeInfo
deriving DecidableEq, Repr

/-- A `PartitionInput` payload for create/update requests. -/
structure PartitionInput where
  values : List String
  storageDescriptor : StorageDescriptor
deriving DecidableEq, Repr

/-- A request issued to the Glue service. -/
inductive Req where
  | getPartition (database table : String) (partitionValues : List String)
  | getPartitions (database table : String) (maxResults : Nat)
      (excludeColumnSchema : Bool)
  | createPartition (database table : String) (input : PartitionInput)
  | updatePartition (database table : String) (partitionValueList : List String)
      (input : PartitionInput)
deriving DecidableEq, Repr

/-- Outcome of a `get_partition` service call: the record, an
`EntityNotFoundException`, or some other exception. -/
inductive GPResp where
  | found (r : PartRec)
  | notFound
  | err (msg : String)
deriving DecidableEq, Repr

/-- Outcome of a create/update service call: an HTTP response with a status
code, or an exception. -/
inductive CallResp where
  | http (status : Nat)
  | exn (msg : String)
deriving DecidableEq, Repr

/-- The boto3 Glue client, as a response oracle.  The paginated
`get_partitions` listing of a table is the sequence of pages `listPages`;
continuation tokens are modelled structurally as the position in that
sequence.  `listENF` tells whether the request following the last delivered
page raises `EntityNotFoundException` (when `false`, the last delivered
response simply carries no `NextToken`). -/
structure GlueClient where
  getPartitionResp : String → String → List String → GPResp
  listPages : String → String → List (List PartRec)
  listENF : String → String → Bool
  createResp : String → String → PartitionInput → CallResp
  updateResp : String → String → List String → PartitionInput → CallResp

/-- Severity of a log record emitted through `logger`. -/
inductive LogLevel where
  | debug
  | warning
  | error
deriving DecidableEq, Repr

/-- One log record. -/
structure LogEntry where
  level : LogLevel
  msg : String
deriving DecidableEq, Repr

/-- The dict `cls._cache`: a mapping from `"database.table"` to the stored list of
partition value lists, modelled as an association list where assignment
prepends (lookup sees the newest binding, as in the Python dict). -/
abbrev Cache := List (String × List (List String))

/-- An exception that escapes a `CatalogInterface` method to its caller. -/
inductive PyErr where
  | svcError (msg : String)
  | indexError
deriving DecidableEq, Repr

/-- A Python value returned inside a listing: a bare first value when
`only_first_value` is true, a whole value list otherwise. -/
inductive PyVal where
  | s (v : String)
  | l (vs : List String)
deriving DecidableEq, Repr

/-- Result of running one `CatalogInterface` method: the returned value or
propagated exception, the cache afterwards, the service requests issued (in
order), and the log records emitted. -/
structure OpResult (α : Type) where
  result : Except PyErr α
  cache : Cache
  reqs : List Req
  logs : List LogEntry
deriving Repr

namespace CatalogInterface

/-- The comparison used by the per-page sort: `a` may precede `b` when
the first value component of `a` is at least that of `b` (descending order). -/
def descLe (a b : PartRec) : Bool :=
  decide (firstValue b.values ≤ firstValue a.values)

/-- The call `sorted(page, key=lambda x: x["Values"][0], reverse=True)`: the stable Python sort, descending by first value component.  `List.mergeSort` is
stable, so ties keep service order exactly as in Python. -/
def sortPageDesc (page : List PartRec) : List PartRec :=
  page.mergeSort descLe

/-- The `"Values"` lists of one page, after the per-page descending sort
(line 105 of the source). -/
def pageVals (page : List PartRec) : List (List String) :=
  (sortPageDesc page).map PartRec.values

/-- The `while True` pagination loop of `get_all_partitions` (lines 97-112):
each iteration issues a `get_partitions` request with `MaxResults=500` and
`ExcludeColumnSchema=True`, appends the sorted page, and continues while the
response carries a `NextToken`.  Recursion over the page sequence models the
token chain; the `[]` case with `enf = true` is the request that raises
`EntityNotFoundException` (caught by the handler, which keeps what was
collected). -/
def gapLoop (database table : String) (enf : Bool) :
    List (List PartRec) → List (List String) × List Req
  | [] =>
      if enf then ([], [.getPartitions database table 500 true]) else ([], [])
  | page :: rest =>
      if rest = [] ∧ enf = false then
        (pageVals page, [.getPartitions database table 500 true])
      else
        let r := gapLoop database table enf rest
        (pageVals page ++ r.1, .getPartitions database table 500 true :: r.2)

/-- Method `CatalogInterface.get_partition` (lines 54-75): asks the service for the
exact partition; `EntityNotFoundException` becomes `None` plus a warning
log, any other exception propagates. -/
def get_partition (g : GlueClient) (c : Cache) (database table : String)
    (partition : List String) : OpResult (Option PartRec) :=
  let pvals := partition.map toString
  match g.getPartitionResp database table pvals with
  | .found r =>
      { result := .ok (some r), cache := c,
        reqs := [.getPartition database table pvals], logs := [] }
  | .notFound =>
      { result := .ok none, cache := c,
        reqs := [.getPartition database table pvals],
        logs := [⟨.warning, "Partição " ++ toString pvals ++
          " não existe na tabela: " ++ database ++ "." ++ table⟩] }
  | .err msg =>
      { result := .error (.svcError msg), cache := c,
        reqs := [.getPartition database table pvals], logs := [] }

/-- Method `CatalogInterface.get_all_partitions` (lines 77-119): returns the cached
list (or its first-value projection) on a hit; otherwise paginates, caches
the full aggregated list, and returns it (or its projection). -/
def get_all_partitions (g : GlueClient) (c : Cache) (database table : String)
    (only_first_value : Bool) : OpResult (List PyVal) :=
  let key := database ++ "." ++ table
  match c.lookup key with
  | some cached =>
      { result := .ok (if only_first_value then
            cached.map (fun item => .s (firstValue item))
          else cached.map .l),
        cache := c, reqs := [], logs := [] }
  | none =>
      let fetched := gapLoop database table (g.listENF database table)
        (g.listPages database table)
      let partitions := fetched.1
      { result := .ok (if only_first_value then
            partitions.map (fun item => .s (firstValue item))
          else partitions.map .l),
        cache := (key, partitions) :: c,
        reqs := fetched.2,
        logs := if g.listENF database table then
            [⟨.warning, "Erro ao buscar partições da tabela: " ++
              database ++ "." ++ table⟩]
          else [] }

/-- The `PartitionInput` sent by `update_partition` (lines 181-186): only
the new location, no format metadata. -/
def updateInput (pvals : List String) (location : String) : PartitionInput :=
  { values := pvals,
    storageDescriptor :=
      { location := location, inputFormat := none, outputFormat := none,
        serdeInfo := none } }

/-- The constant `StorageDescriptor` sent by `create_partition`
(lines 145-153). -/
def createStorageDescriptor (location : String) : StorageDescriptor :=
  { location := location,
    inputFormat := some "org.apache.hadoop.mapred.TextInputFormat",
    outputFormat := some "org.apache.hadoop.hive.ql.io.HiveIgnoreKeyTextOutputFormat",
    serdeInfo := some
      { serializationLibrary :=
          "org.apache.hadoop.hive.ql.io.parquet.serde.ParquetHiveSerDe",
        parameters := [("serialization.format", "1")] } }

/-- The `PartitionInput` sent by `create_partition` (lines 143-154). -/
def createInput (pvals : List String) (location : String) : PartitionInput :=
  { values := pvals, storageDescriptor := createStorageDescriptor location }

/-- Method `CatalogInterface.create_partition` (lines 121-160): checks existence
via `get_partition` (outside any handler), no-ops with a warning when the
partition exists, otherwise issues the create request inside a
`try/except Exception` that logs and swallows every failure. -/
def create_partition (g : GlueClient) (c : Cache) (database table : String)
    (partition : List String) (location : String) : OpResult Unit :=
  let gp := get_partition g c database table partition
  match gp.result with
  | .error e =>
      { result := .error e, cache := gp.cache, reqs := gp.reqs, logs := gp.logs }
  | .ok (some _) =>
      { result := .ok (), cache := gp.cache, reqs := gp.reqs,
        logs := gp.logs ++ [⟨.warning, "Partição já existe!"⟩] }
  | .ok none =>
      let pvals := partition.map toString
      let input := createInput pvals location
      let creating : LogEntry :=
        ⟨.debug, "Criando partição " ++ toString pvals ++ " em " ++ location ++ "..."⟩
      match g.createResp database table input with
      | .http status =>
          { result := .ok (), cache := gp.cache,
            reqs := gp.reqs ++ [.createPartition database table input],
            logs := gp.logs ++ [creating] ++
              (if status = 200 then [⟨.debug, "Criado partição com sucesso!"⟩]
               else []) }
      | .exn msg =>
          { result := .ok (), cache := gp.cache,
            reqs := gp.reqs ++ [.createPartition database table input],
            logs := gp.logs ++ [creating,
              ⟨.error, "Erro ao criar partição " ++ toString pvals ++
                " para tabela " ++ database ++ "." ++ table⟩,
              ⟨.error, msg⟩] }

/-- Method `CatalogInterface.update_partition` (lines 163-195): issues the update
request inside a `try/except Exception`; a non-200 status is logged as an
error, every exception is logged and swallowed. -/
def update_partition (g : GlueClient) (c : Cache) (database table : String)
    (partition : List String) (location : String) : OpResult Unit :=
  let pvals := partition.map toString
  let input := updateInput pvals location
  match g.updateResp database table pvals input with
  | .http status =>
      { result := .ok (), cache := c,
        reqs := [.updatePartition database table pvals input],
        logs := if status = 200 then
            [⟨.debug, "Atualizado partição com sucesso!"⟩]
          else
            [⟨.error, "Erro ao atualizar partição! Status Code: " ++
              toString status⟩] }
  | .exn msg =>
      { result := .ok (), cache := c,
        reqs := [.updatePartition database table pvals input],
        logs := [⟨.error, "Erro ao atualizar partição " ++ toString pvals ++
            " para tabela " ++ database ++ "." ++ table⟩,
          ⟨.error, msg⟩] }

/-- Method `CatalogInterface.get_last_partition` (lines 197-208): `partitions[0]`
of the listing; indexing an empty list raises `IndexError`. -/
def get_last_partition (g : GlueClient) (c : Cache) (database table : String)
    (only_first_value : Bool) : OpResult PyVal :=
  let gp := get_all_partitions g c database table only_first_value
  match gp.result with
  | .error e =>
      { result := .error e, cache := gp.cache, reqs := gp.reqs, logs := gp.logs }
  | .ok [] =>
      { result := .error .indexError, cache := gp.cache, reqs := gp.reqs,
        logs := gp.logs }
  | .ok (x :: _) =>
      { result := .ok x, cache := gp.cache, reqs := gp.reqs, logs := gp.logs }

end CatalogInterface

/-- Whether a request is a `CreatePartition` request. -/
def Req.isCreate : Req → Bool
  | .createPartition _ _ _ => true
  | _ => false

/-- A list of partition value lists is globally sorted descending by first
value component. -/
def SortedDescByFirst (l : List (List String)) : Prop :=
  l.Pairwise (fun a b => firstValue b ≤ firstValue a)

instance : DecidablePred SortedDescByFirst := fun _ =>
  List.instDecidablePairwise _

/-- An idealised catalog service, making the environment of the external-interface
section of the spec explicit: a store of partition entries
`(database, table, values, location)` where a point read finds exactly the
stored entries, a create appends an entry, and create/update respond with
HTTP 200. -/
structure IdealGlue where
  parts : List (String × String × List String × String)
deriving DecidableEq, Repr

/-- Whether the ideal service holds a partition with these values. -/
def IdealGlue.has (I : IdealGlue) (database table : String)
    (values : List String) : Bool :=
  I.parts.any (fun e => e.1 == database && e.2.1 == table && e.2.2.1 == values)

/-- The response oracle presented by the ideal service. -/
def idealClient (I : IdealGlue) : GlueClient where
  getPartitionResp := fun database table values =>
    if I.has database table values then .found ⟨values⟩ else .notFound
  listPages := fun database table =>
    [(I.parts.filter (fun e => e.1 == database && e.2.1 == table)).map
      (fun e => ⟨e.2.2.1⟩)]
  listENF := fun _ _ => false
  createResp := fun _ _ _ => .http 200
  updateResp := fun _ _ _ _ => .http 200

/-- The state transition the ideal service performs on one request: a
create appends the new entry, everything else is read-only. -/
def IdealGlue.applyReq (I : IdealGlue) : Req → IdealGlue
  | .createPartition database table input =>
      ⟨I.parts ++ [(database, table, input.values, input.storageDescriptor.location)]⟩
  | _ => I

/-- Folding a request trace through the ideal service. -/
def IdealGlue.applyReqs (I : IdealGlue) (reqs : List Req) : IdealGlue :=
  reqs.foldl IdealGlue.applyReq I

/-- A concrete service whose listing delivers two one-partition pages whose
first values are not in descending order across the page boundary. -/
def twoPageClient : GlueClient where
  getPartitionResp := fun _ _ _ => .notFound
  listPages := fun _ _ => [[⟨["1"]⟩], [⟨["2"]⟩]]
  listENF := fun _ _ => false
  createResp := fun _ _ _ => .http 200
  updateResp := fun _ _ _ _ => .http 200

/-- A concrete service with no partitions: a single empty page, not-found
point reads, and create/update calls that raise. -/
def emptyClient : GlueClient where
  getPartitionResp := fun _ _ _ => .notFound
  listPages := fun _ _ => [[]]
  listENF := fun _ _ => false
  createResp := fun _ _ _ => .exn "boom"
  updateResp := fun _ _ _ _ => .exn "boom"

/-- A concrete service whose point read fails with a non-not-found error
and whose listing raises immediately. -/
def errClient : GlueClient where
  getPartitionResp := fun _ _ _ => .err "internal"
  listPages := fun _ _ => []
  listENF := fun _ _ => true
  createResp := fun _ _ _ => .http 200
  updateResp := fun _ _ _ _ => .http 503

/-- A concrete service whose point read is not-found and whose writes
return non-200 HTTP statuses. -/
def badStatusClient : GlueClient where
  getPartitionResp := fun _ _ _ => .notFound
  listPages := fun _ _ => [[]]
  listENF := fun _ _ => false
  createResp := fun _ _ _ => .http 500
  updateResp := fun _ _ _ _ => .http 503

/-- The ideal-service state after running `create_partition` once against
it: the request trace of the first call folded into the store. -/
def idealAfterCreate (I : IdealGlue) (c : Cache) (database table : String)
    (partition : List String) (location : String) : IdealGlue :=
  IdealGlue.applyReqs I
    (CatalogInterface.create_partition (idealClient I) c database table
      partition location).reqs

/-- The second of two identical `create_partition` calls: it runs against
the service state and the cache left by the first call. -/
def createSecond (I : IdealGlue) (c : Cache) (database table : String)
    (partition : List String) (location : String) : OpResult Unit :=
  CatalogInterface.create_partition
    (idealClient (idealAfterCreate I c database table partition location))
    (CatalogInterface.create_partition (idealClient I) c database table
      partition location).cache
    database table partition location

namespace CatalogInterface

lemma descLe_trans (a b c : PartRec) (hab : descLe a b = true)
    (hbc : descLe b c = true) : descLe a c = true := by
  simp only [descLe, decide_eq_true_eq] at *
  exact le_trans hbc hab

lemma descLe_total (a b : PartRec) : (descLe a b || descLe b a) = true := by
  simp only [descLe, Bool.or_eq_true, decide_eq_true_eq]
  exact le_total (firstValue b.values) (firstValue a.values)

lemma pageVals_pairwise (page : List PartRec) :
    (pageVals page).Pairwise (fun a b => firstValue b ≤ firstValue a) := by
  unfold pageVals sortPageDesc
  rw [List.pairwise_map]
  have h := List.sorted_mergeSort descLe_trans descLe_total page
  exact h.imp (fun hab => by simpa [descLe] using hab)

lemma pageVals_perm (page : List PartRec) :
    (pageVals page).Perm (page.map PartRec.values) := by
  unfold pageVals sortPageDesc
  exact (List.mergeSort_perm page descLe).map PartRec.values

lemma pageVals_length (page : List PartRec) :
    (pageVals page).length = page.length := by
  simp [pageVals, sortPageDesc]

lemma gapLoop_fst (database table : String) (enf : Bool)
    (ps : List (List PartRec)) :
    (gapLoop database table enf ps).1 = (ps.map pageVals).flatten := by
  induction ps with
  | nil => cases enf <;> simp [gapLoop]
  | cons page rest ih =>
      by_cases hc : rest = [] ∧ enf = false
      · obtain ⟨h1, h2⟩ := hc
        subst h1; subst h2
        simp [gapLoop]
      · simp [gapLoop, hc, ih]

lemma gapLoop_snd (database table : String) (enf : Bool)
    (ps : List (List PartRec)) :
    (gapLoop database table enf ps).2 =
      List.replicate (ps.length + if enf then 1 else 0)
        (Req.getPartitions database table 500 true) := by
  induction ps with
  | nil => cases enf <;> simp [gapLoop]
  | cons page rest ih =>
      cases enf with
      | true => simp [gapLoop, ih, List.replicate_succ]
      | false =>
          by_cases hc : rest = []
          · subst hc; simp [gapLoop]
          · simp [gapLoop, hc, ih, List.replicate_succ]

lemma gapLoop_fst_length (database table : String) (enf : Bool)
    (ps : List (List PartRec)) :
    (gapLoop database table enf ps).1.length = (ps.map List.length).sum := by
  rw [gapLoop_fst, List.length_flatten, List.map_map]
  exact congrArg List.sum
    (List.map_congr_left (fun page _ => pageVals_length page))

lemma get_all_miss (g : GlueClient) (c : Cache) (database table : String)
    (f : Bool) (h : c.lookup (database ++ "." ++ table) = none) :
    get_all_partitions g c database table f =
      { result := .ok (if f then
            (gapLoop database table (g.listENF database table)
              (g.listPages database table)).1.map
              (fun item => PyVal.s (firstValue item))
          else (gapLoop database table (g.listENF database table)
            (g.listPages database table)).1.map PyVal.l),
        cache := (database ++ "." ++ table,
          (gapLoop database table (g.listENF database table)
            (g.listPages database table)).1) :: c,
        reqs := (gapLoop database table (g.listENF database table)
          (g.listPages database table)).2,
        logs := if g.listENF database table then
            [⟨.warning, "Erro ao buscar partições da tabela: " ++
              database ++ "." ++ table⟩]
          else [] } := by
  unfold get_all_partitions
  simp [h]

lemma create_when_has (I : IdealGlue) (c : Cache) (database table : String)
    (partition : List String) (location : String)
    (hh : I.has database table (partition.map toString) = true) :
    (create_partition (idealClient I) c database table partition
      location).result = .ok () ∧
    (∀ q ∈ (create_partition (idealClient I) c database table partition
      location).reqs, q.isCreate = false) ∧
    IdealGlue.applyReqs I (create_partition (idealClient I) c database table
      partition location).reqs = I ∧
    LogEntry.mk .warning "Partição já existe!" ∈
      (create_partition (idealClient I) c database table partition
        location).logs := by
  unfold create_partition get_partition idealClient
  simp [hh, IdealGlue.applyReqs, IdealGlue.applyReq, Req.isCreate]

lemma has_after_first (I : IdealGlue) (c : Cache) (database table : String)
    (partition : List String) (location : String) :
    (idealAfterCreate I c database table partition location).has
      database table (partition.map toString) = true := by
  unfold idealAfterCreate create_partition get_partition idealClient
  by_cases hh : I.has database table (partition.map toString)
  · simp [hh, IdealGlue.applyReqs, IdealGlue.applyReq]
  · simp only [Bool.not_eq_true] at hh
    rw [IdealGlue.has] at hh
    simp [hh, IdealGlue.applyReqs, IdealGlue.applyReq, createInput,
      createStorageDescriptor, IdealGlue.has]

end CatalogInterface

open CatalogInterface

/-- C3: for every database, table and service state, the listing with
`only_first_value = True` is exactly the element-wise first component of
the listing with `only_first_value = False`, in the same order, with the
same resulting cache and the same issued requests — covering both the
cache-hit and the cache-miss path. -/
theorem only_first_value_projection (g : GlueClient) (c : Cache)
    (database table : String) :
    ∃ full : List (List String),
      (get_all_partitions g c database table false).result =
        .ok (full.map PyVal.l) ∧
      (get_all_partitions g c database table true).result =
        .ok (full.map (fun vs => PyVal.s (firstValue vs))) ∧
      (get_all_partitions g c database table true).cache =
        (get_all_partitions g c database table false).cache ∧
      (get_all_partitions g c database table true).reqs =
        (get_all_partitions g c database table false).reqs := by
  unfold get_all_partitions
  cases h : c.lookup (database ++ "." ++ table) with
  | some cached => exact ⟨cached, by simp [h]⟩
  | none =>
      exact ⟨(gapLoop database table (g.listENF database table)
        (g.listPages database table)).1, by simp [h]⟩

/-- C9: `get_partition`, `create_partition` and `update_partition` leave
the cache unchanged for every input and every service outcome; the only
cache write anywhere is `get_all_partitions` prepending an entry for its
own `database.table` key on a miss. -/
theorem cache_frame (g : GlueClient) (c : Cache) (database table : String)
    (partition : List String) (location : String) (f : Bool) :
    (get_partition g c database table partition).cache = c ∧
    (create_partition g c database table partition location).cache = c ∧
    (update_partition g c database table partition location).cache = c ∧
    ((get_all_partitions g c database table f).cache = c ∨
      (get_all_partitions g c database table f).cache =
        (database ++ "." ++ table,
          (gapLoop database table (g.listENF database table)
            (g.listPages database table)).1) :: c) := by
  refine ⟨?_, ?_, ?_, ?_⟩
  · unfold get_partition
    cases h : g.getPartitionResp database table (partition.map toString) <;>
      simp [h]
  · unfold create_partition get_partition
    cases h : g.getPartitionResp database table (partition.map toString) with
    | found r => simp [h]
    | notFound =>
        cases h2 : g.createResp database table
          (createInput (partition.map toString) location) <;> simp [h, h2]
    | err m => simp [h]
  · unfold update_partition
    cases h : g.updateResp database table (partition.map toString)
      (updateInput (partition.map toString) location) <;> simp [h]
  · unfold get_all_partitions
    cases h : c.lookup (database ++ "." ++ table) with
    | some cached => left; simp [h]
    | none => right; simp [h]

/-- C4: whenever the service reports the partition as not found,
`get_partition` returns `None` instead of raising, emits a warning-level
log record, and leaves the cache alone. -/
theorem get_partition_not_found_absent (g : GlueClient) (c : Cache)
    (database table : String) (partition : List String)
    (h : g.getPartitionResp database table (partition.map toString) =
      .notFound) :
    (get_partition g c database table partition).result = .ok none ∧
    (∃ e ∈ (get_partition g c database table partition).logs,
      e.level = .warning) ∧
    (get_partition g c database table partition).cache = c := by
  unfold get_partition
  simp [h]

/-- Witness for C4 at a concrete service with no partitions. -/
theorem get_partition_not_found_absent_witness :
    (get_partition emptyClient [] "db" "tbl" ["2024"]).result = .ok none ∧
    (∃ e ∈ (get_partition emptyClient [] "db" "tbl" ["2024"]).logs,
      e.level = .warning) ∧
    (get_partition emptyClient [] "db" "tbl" ["2024"]).cache = [] :=
  get_partition_not_found_absent emptyClient [] "db" "tbl" ["2024"] rfl

/-- C10: when the existence check inside `create_partition` fails with a
service error other than not-found, the exception propagates to the caller
and no create request is issued: the swallowing `try/except` covers only
the create request itself. -/
theorem create_precheck_propagates (g : GlueClient) (c : Cache)
    (database table : String) (partition : List String) (location msg : String)
    (h : g.getPartitionResp database table (partition.map toString) =
      .err msg) :
    (create_partition g c database table partition location).result =
      .error (.svcError msg) ∧
    ∀ q ∈ (create_partition g c database table partition location).reqs,
      q.isCreate = false := by
  unfold create_partition get_partition
  simp [h, Req.isCreate]

/-- Witness for C10 at a concrete service whose point read raises. -/
theorem create_precheck_propagates_witness :
    (create_partition errClient [] "db" "tbl" ["2024"] "s3://x").result =
      .error (.svcError "internal") ∧
    ∀ q ∈ (create_partition errClient [] "db" "tbl" ["2024"] "s3://x").reqs,
      q.isCreate = false :=
  create_precheck_propagates errClient [] "db" "tbl" ["2024"] "s3://x"
    "internal" rfl

/-- C1: `get_last_partition` returns exactly the first element of the
listing obtained with the same arguments, and when that listing is empty it
fails with an index-out-of-range error instead of returning a value. -/
theorem get_last_partition_head (g : GlueClient) (c : Cache)
    (database table : String) (f : Bool) :
    ((get_all_partitions g c database table f).result = .ok [] →
      (get_last_partition g c database table f).result =
        .error .indexError) ∧
    (∀ x xs,
      (get_all_partitions g c database table f).result = .ok (x :: xs) →
      (get_last_partition g c database table f).result = .ok x) ∧
    (get_last_partition g c database table f).cache =
      (get_all_partitions g c database table f).cache := by
  unfold get_last_partition
  refine ⟨?_, ?_, ?_⟩
  · intro h; simp [h]
  · intro x xs h; simp [h]
  · cases h : (get_all_partitions g c database table f).result with
    | error e => simp [h]
    | ok l => cases l <;> simp [h]

/-- Witness for C1: an empty table makes `get_last_partition` fail with the
index error, a two-page table returns the first listed value. -/
theorem get_last_partition_head_witness :
    (get_last_partition emptyClient [] "db" "tbl" true).result =
      .error .indexError ∧
    (get_last_partition twoPageClient [] "db" "tbl" true).result =
      .ok (PyVal.s "1") :=
  by
  constructor
  · apply (get_last_partition_head emptyClient [] "db" "tbl" true).1
    simp [get_all_partitions, gapLoop, pageVals, sortPageDesc, emptyClient]
  · apply (get_last_partition_head twoPageClient [] "db" "tbl" true).2.1
      (PyVal.s "1") [PyVal.s "2"]
    simp [get_all_partitions, gapLoop, pageVals, sortPageDesc, twoPageClient,
      firstValue]

/-- C6: a listing call for an already-cached `database.table` issues no
service request, leaves the cache unchanged and returns the stored list
(projected to first values when requested); consequently a second listing
call right after any first one returns the same result with no service
request and no cache change — entries are never refreshed or invalidated. -/
theorem list_partitions_cache_hit (g : GlueClient) (c : Cache)
    (database table : String) (f : Bool) :
    (∀ l, c.lookup (database ++ "." ++ table) = some l →
      (get_all_partitions g c database table f).reqs = [] ∧
      (get_all_partitions g c database table f).cache = c ∧
      (get_all_partitions g c database table f).result =
        .ok (if f then l.map (fun item => PyVal.s (firstValue item))
             else l.map PyVal.l)) ∧
    ((get_all_partitions g (get_all_partitions g c database table f).cache
        database table f).reqs = [] ∧
      (get_all_partitions g (get_all_partitions g c database table f).cache
        database table f).result =
        (get_all_partitions g c database table f).result ∧
      (get_all_partitions g (get_all_partitions g c database table f).cache
        database table f).cache =
        (get_all_partitions g c database table f).cache) := by
  constructor
  · intro l h
    unfold get_all_partitions
    simp [h]
  · unfold get_all_partitions
    cases h : c.lookup (database ++ "." ++ table) with
    | some cached => simp [h]
    | none => simp [h]

/-- Witness for C6 at a concrete pre-populated cache. -/
theorem list_partitions_cache_hit_witness :
    (get_all_partitions twoPageClient [("db.tbl", [["3"], ["2"]])]
      "db" "tbl" false).reqs = [] ∧
    (get_all_partitions twoPageClient [("db.tbl", [["3"], ["2"]])]
      "db" "tbl" false).cache = [("db.tbl", [["3"], ["2"]])] ∧
    (get_all_partitions twoPageClient [("db.tbl", [["3"], ["2"]])]
      "db" "tbl" false).result =
      .ok (if false then
          [["3"], ["2"]].map (fun item => PyVal.s (firstValue item))
        else [["3"], ["2"]].map PyVal.l) :=
  (list_partitions_cache_hit twoPageClient [("db.tbl", [["3"], ["2"]])]
    "db" "tbl" false).1 [["3"], ["2"]] (by decide)

/-- C7: on a cache miss, every request the pagination loop issues asks for
at most 500 entries with the column schema excluded, the loop makes one
request per delivered page (plus the final failing one when the listing is
cut off by a not-found error), and the stored aggregate has exactly as many
entries as all delivered pages together. -/
theorem get_all_partitions_pagination (g : GlueClient) (c : Cache)
    (database table : String) (f : Bool)
    (h : c.lookup (database ++ "." ++ table) = none) :
    ∃ stored,
      (get_all_partitions g c database table f).cache.lookup
        (database ++ "." ++ table) = some stored ∧
      stored.length = ((g.listPages database table).map List.length).sum ∧
      (∀ q ∈ (get_all_partitions g c database table f).reqs,
        q = .getPartitions database table 500 true) ∧
      (get_all_partitions g c database table f).reqs.length =
        (g.listPages database table).length +
          (if g.listENF database table then 1 else 0) := by
  refine ⟨(gapLoop database table (g.listENF database table)
    (g.listPages database table)).1, ?_, ?_, ?_, ?_⟩
  · rw [get_all_miss g c database table f h]
    exact List.lookup_cons_self
  · exact gapLoop_fst_length database table (g.listENF database table)
      (g.listPages database table)
  · rw [get_all_miss g c database table f h]
    intro q hq
    rw [gapLoop_snd] at hq
    exact List.eq_of_mem_replicate hq
  · rw [get_all_miss g c database table f h]
    simp [gapLoop_snd]

/-- Witness for C7 at a concrete two-page service. -/
theorem get_all_partitions_pagination_witness :
    ∃ stored,
      (get_all_partitions twoPageClient [] "db" "tbl" false).cache.lookup
        ("db" ++ "." ++ "tbl") = some stored ∧
      stored.length =
        ((twoPageClient.listPages "db" "tbl").map List.length).sum ∧
      (∀ q ∈ (get_all_partitions twoPageClient [] "db" "tbl" false).reqs,
        q = .getPartitions "db" "tbl" 500 true) ∧
      (get_all_partitions twoPageClient [] "db" "tbl" false).reqs.length =
        (twoPageClient.listPages "db" "tbl").length +
          (if twoPageClient.listENF "db" "tbl" then 1 else 0) :=
  get_all_partitions_pagination twoPageClient [] "db" "tbl" false rfl

/-- C2 as stated is false: with partitions split across pages the code
sorts each page separately and concatenates, so the stored list need not be
globally descending.  Two pages whose first values are `"1"` then `"2"`
leave `[["1"], ["2"]]` in the cache, which is not sorted descending. -/
theorem cache_global_sort_counterexample :
    (get_all_partitions twoPageClient [] "db" "tbl" false).cache.lookup
      ("db" ++ "." ++ "tbl") = some [["1"], ["2"]] ∧
    ¬ SortedDescByFirst [["1"], ["2"]] := by
  constructor
  · simp [get_all_partitions, gapLoop, pageVals, sortPageDesc, twoPageClient]
  · simp [SortedDescByFirst, firstValue]
    decide

/-- C2 (amended): the cache entry populated on a listing miss is the
concatenation of per-page blocks, each block sorted descending by first
value component and a permutation of the value lists of its page; the whole
stored list is guaranteed globally descending only when the service
delivered at most one page. -/
theorem cache_per_page_sorted (g : GlueClient) (c : Cache)
    (database table : String) (f : Bool)
    (h : c.lookup (database ++ "." ++ table) = none) :
    ∃ stored,
      (get_all_partitions g c database table f).cache.lookup
        (database ++ "." ++ table) = some stored ∧
      stored = ((g.listPages database table).map pageVals).flatten ∧
      (∀ page ∈ g.listPages database table,
        (pageVals page).Pairwise (fun a b => firstValue b ≤ firstValue a) ∧
        (pageVals page).Perm (page.map PartRec.values)) ∧
      ((g.listPages database table).length ≤ 1 →
        SortedDescByFirst stored) := by
  refine ⟨(gapLoop database table (g.listENF database table)
    (g.listPages database table)).1, ?_, ?_, ?_, ?_⟩
  · unfold get_all_partitions
    simp [h]
  · exact gapLoop_fst database table (g.listENF database table)
      (g.listPages database table)
  · intro page _
    exact ⟨pageVals_pairwise page, pageVals_perm page⟩
  · rw [gapLoop_fst]
    cases hp : g.listPages database table with
    | nil => intro _; exact List.Pairwise.nil
    | cons p rest =>
        cases rest with
        | nil =>
            intro _
            simpa [SortedDescByFirst] using pageVals_pairwise p
        | cons q rest2 =>
            intro hlen
            simp [List.length_cons] at hlen

/-- Witness for the amended C2 theorem at the concrete two-page service. -/
theorem cache_per_page_sorted_witness :
    ∃ stored,
      (get_all_partitions twoPageClient [] "db" "tbl" false).cache.lookup
        ("db" ++ "." ++ "tbl") = some stored ∧
      stored = ((twoPageClient.listPages "db" "tbl").map pageVals).flatten ∧
      (∀ page ∈ twoPageClient.listPages "db" "tbl",
        (pageVals page).Pairwise (fun a b => firstValue b ≤ firstValue a) ∧
        (pageVals page).Perm (page.map PartRec.values)) ∧
      ((twoPageClient.listPages "db" "tbl").length ≤ 1 →
        SortedDescByFirst stored) :=
  cache_per_page_sorted twoPageClient [] "db" "tbl" false rfl

/-- C5: against the explicit ideal service, `create_partition` on an
existing key logs a warning and returns without issuing a create request
and without error; and after any first `create_partition`, a second call
with the same key issues no create request, succeeds, warns, and leaves the
service state unchanged — no duplicate record is created. -/
theorem create_partition_idempotent (I : IdealGlue) (c : Cache)
    (database table : String) (partition : List String) (location : String) :
    (I.has database table (partition.map toString) = true →
      (create_partition (idealClient I) c database table partition
        location).result = .ok () ∧
      (∀ q ∈ (create_partition (idealClient I) c database table partition
        location).reqs, q.isCreate = false) ∧
      LogEntry.mk .warning "Partição já existe!" ∈
        (create_partition (idealClient I) c database table partition
          location).logs) ∧
    (createSecond I c database table partition location).result = .ok () ∧
    (∀ q ∈ (createSecond I c database table partition location).reqs,
      q.isCreate = false) ∧
    IdealGlue.applyReqs (idealAfterCreate I c database table partition location)
      (createSecond I c database table partition location).reqs =
      idealAfterCreate I c database table partition location ∧
    LogEntry.mk .warning "Partição já existe!" ∈
      (createSecond I c database table partition location).logs := by
  constructor
  · intro hh
    have h := create_when_has I c database table partition location hh
    exact ⟨h.1, h.2.1, h.2.2.2⟩
  · have hh1 := has_after_first I c database table partition location
    have h := create_when_has
      (idealAfterCreate I c database table partition location)
      (create_partition (idealClient I) c database table partition
        location).cache
      database table partition location hh1
    exact ⟨h.1, h.2.1, h.2.2.1, h.2.2.2⟩

/-- Witness for C5: creating an already-present key is a warned no-op, and
the second of two identical creates against an initially empty service
issues no create request. -/
theorem create_partition_idempotent_witness :
    (create_partition (idealClient (IdealGlue.mk
        [("db", "tbl", ["1"], "s3://x")])) [] "db" "tbl" ["1"]
      "s3://y").result = .ok () ∧
    LogEntry.mk .warning "Partição já existe!" ∈
      (create_partition (idealClient (IdealGlue.mk
          [("db", "tbl", ["1"], "s3://x")])) [] "db" "tbl" ["1"]
        "s3://y").logs ∧
    (createSecond (IdealGlue.mk []) [] "db" "tbl" ["1"] "s3://x").result =
      .ok () ∧
    (∀ q ∈ (createSecond (IdealGlue.mk []) [] "db" "tbl" ["1"]
      "s3://x").reqs, q.isCreate = false) := by
  have h1 := (create_partition_idempotent
    (IdealGlue.mk [("db", "tbl", ["1"], "s3://x")]) [] "db" "tbl" ["1"]
    "s3://y").1 (by decide)
  have h2 := (create_partition_idempotent (IdealGlue.mk []) [] "db" "tbl"
    ["1"] "s3://x").2
  exact ⟨h1.1, h1.2.2, h2.1, h2.2.1⟩

/-- C8: `update_partition` always returns `None`; any exception from the
update request is caught and logged as an error; a non-200 update status is
logged as an error with the status code and not raised; and provided the
existence check itself does not raise, `create_partition` also returns
`None`, logging any exception from the create request. -/
theorem write_errors_swallowed (g : GlueClient) (c : Cache)
    (database table : String) (partition : List String) (location : String)
    (hget : ∀ m, g.getPartitionResp database table (partition.map toString) ≠
      .err m) :
    (update_partition g c database table partition location).result =
      .ok () ∧
    (create_partition g c database table partition location).result =
      .ok () ∧
    (∀ msg, g.updateResp database table (partition.map toString)
        (updateInput (partition.map toString) location) = .exn msg →
      ∃ e ∈ (update_partition g c database table partition location).logs,
        e.level = .error) ∧
    (∀ st, g.updateResp database table (partition.map toString)
        (updateInput (partition.map toString) location) = .http st →
      st ≠ 200 →
      LogEntry.mk .error
          ("Erro ao atualizar partição! Status Code: " ++ toString st) ∈
        (update_partition g c database table partition location).logs) ∧
    (∀ msg, g.getPartitionResp database table (partition.map toString) =
        .notFound →
      g.createResp database table
        (createInput (partition.map toString) location) = .exn msg →
      ∃ e ∈ (create_partition g c database table partition location).logs,
        e.level = .error) := by
  refine ⟨?_, ?_, ?_, ?_, ?_⟩
  · unfold update_partition
    cases h : g.updateResp database table (partition.map toString)
      (updateInput (partition.map toString) location) <;> simp [h]
  · unfold create_partition get_partition
    cases h : g.getPartitionResp database table (partition.map toString) with
    | found r => simp [h]
    | notFound =>
        cases h2 : g.createResp database table
          (createInput (partition.map toString) location) <;> simp [h, h2]
    | err m => exact absurd h (hget m)
  · intro msg h
    unfold update_partition
    simp [h]
  · intro st h hne
    unfold update_partition
    simp [h, hne]
  · intro msg hnf hexn
    unfold create_partition get_partition
    simp [hnf, hexn]

/-- Witness for C8: a service whose writes raise, and one whose update
answers HTTP 503. -/
theorem write_errors_swallowed_witness :
    ((update_partition emptyClient [] "db" "tbl" ["1"] "s3://x").result =
      .ok () ∧
     (create_partition emptyClient [] "db" "tbl" ["1"] "s3://x").result =
      .ok () ∧
     (∃ e ∈ (update_partition emptyClient [] "db" "tbl" ["1"]
        "s3://x").logs, e.level = .error) ∧
     (∃ e ∈ (create_partition emptyClient [] "db" "tbl" ["1"]
        "s3://x").logs, e.level = .error)) ∧
    LogEntry.mk .error
        ("Erro ao atualizar partição! Status Code: " ++ toString 503) ∈
      (update_partition badStatusClient [] "db" "tbl" ["1"] "s3://x").logs := by
  have he := write_errors_swallowed emptyClient [] "db" "tbl" ["1"] "s3://x"
    (fun m h => nomatch h)
  have hb := write_errors_swallowed badStatusClient [] "db" "tbl" ["1"]
    "s3://x" (fun m h => nomatch h)
  exact ⟨⟨he.1, he.2.1, he.2.2.1 "boom" rfl, he.2.2.2.2 "boom" rfl rfl⟩,
    hb.2.2.2.1 503 rfl (by decide)⟩
